import Mathlib

/-!
Shallow embedding of the LibPass attack-campaign orchestration and
evaluation engine (src/python/evaluator.py, src/python/libpass_attack.py,
src/python/automated_attack.py), together with theorems settling the
frozen claims about it.

JSON records are embedded as Lean structures whose fields are `Option`s:
a `none` field models an absent key, and every read of a key through
Python's `dict.get(key, default)` is embedded as `Option.getD`.
Floating-point rates are embedded as exact rationals.
-/

namespace LibPass

/-! ## Evaluator data model (src/python/evaluator.py) -/

/-- One element of a record's `results` list: a per-strategy entry of the
engine's result artifact, with keys `strategyName` and `successRate`. -/
structure SEntry where
  strategyName : Option String
  successRate : Option ℚ
deriving DecidableEq, Repr

/-- One loaded outcome record (an element of `AttackEvaluator.results`),
read by `evaluate` through the keys `success`, `overall_success_rate`
and `results`. -/
structure ERec where
  success : Option Bool
  overall_success_rate : Option ℚ
  results : Option (List SEntry)
deriving DecidableEq, Repr

/-- The aggregated per-strategy value `evaluate` stores under
`strategy_performance` once statistics are computed. -/
structure StrategyPerf where
  average : ℚ
  median : ℚ
  count : ℕ
deriving DecidableEq, Repr

/-- The metrics dictionary built by `AttackEvaluator.evaluate` (lines
45-56 of evaluator.py give the initial values). `strategy_performance`
and `tool_specific_performance` are insertion-ordered association
lists, like Python dicts. -/
structure Metrics where
  total_attacks : ℕ
  successful_attacks : ℕ
  failed_attacks : ℕ
  success_rates : List ℚ
  average_success_rate : ℚ
  median_success_rate : ℚ
  max_success_rate : ℚ
  min_success_rate : ℚ
  strategy_performance : List (String × StrategyPerf)
  tool_specific_performance : List (String × StrategyPerf)
deriving DecidableEq, Repr

/-! ## Python `statistics` functions on exact rationals -/

/-- Insert a value into an ascending list, keeping it sorted. -/
def insertSorted (x : ℚ) : List ℚ → List ℚ
  | [] => [x]
  | y :: ys => if x ≤ y then x :: y :: ys else y :: insertSorted x ys

/-- Python's `sorted` for a list of numbers (ascending). -/
def pysorted (l : List ℚ) : List ℚ := l.foldr insertSorted []

/-- `statistics.mean`: the arithmetic mean. The empty case is
unreachable in the program (Python would raise); it yields 0 here. -/
def pymean (l : List ℚ) : ℚ := l.sum / l.length

/-- `statistics.median`: middle element of the sorted list, or the mean
of the two middle elements when the length is even. -/
def pymedian (l : List ℚ) : ℚ :=
  let s := pysorted l
  let n := s.length
  if n % 2 = 1 then s.getD (n / 2) 0
  else (s.getD (n / 2 - 1) 0 + s.getD (n / 2) 0) / 2

/-! ## `AttackEvaluator.evaluate` (evaluator.py lines 39-96) -/

/-- Append a rate to the bucket of the named strategy, creating the
bucket at the end when the name is new — exactly the effect of
`metrics['strategy_performance'][name].append(rate)` after the
membership test, on an insertion-ordered dict. -/
def bucketAdd : List (String × List ℚ) → String → ℚ → List (String × List ℚ)
  | [], name, r => [(name, [r])]
  | (n, rs) :: rest, name, r =>
      if n = name then (n, rs ++ [r]) :: rest
      else (n, rs) :: bucketAdd rest name r

/-- Process one element of `result.get('results', [])` (lines 72-78):
keys `strategyName` (default `'unknown'`) and `successRate`
(default 0.0). -/
def stepEntry (bs : List (String × List ℚ)) (e : SEntry) : List (String × List ℚ) :=
  bucketAdd bs (e.strategyName.getD "unknown") (e.successRate.getD 0)

/-- The running state of the loop at lines 59-80 of evaluator.py. -/
structure EvalAcc where
  successful_attacks : ℕ
  failed_attacks : ℕ
  success_rates : List ℚ
  max_success_rate : ℚ
  min_success_rate : ℚ
  buckets : List (String × List ℚ)
deriving DecidableEq, Repr

/-- The initial metric values of lines 45-56: counters 0, rates empty,
`max_success_rate` 0.0, `min_success_rate` 1.0, no buckets. -/
def initAcc : EvalAcc := ⟨0, 0, [], 0, 1, []⟩

/-- One iteration of the loop at lines 59-80: a record whose `success`
value is truthy bumps the success counter, appends its overall rate,
updates max/min, and buckets every per-strategy entry; any other
record only bumps the failure counter. -/
def stepRecord (acc : EvalAcc) (r : ERec) : EvalAcc :=
  if r.success.getD false then
    let rate := r.overall_success_rate.getD 0
    { acc with
      successful_attacks := acc.successful_attacks + 1
      success_rates := acc.success_rates ++ [rate]
      max_success_rate := if rate > acc.max_success_rate then rate else acc.max_success_rate
      min_success_rate := if rate < acc.min_success_rate then rate else acc.min_success_rate
      buckets := (r.results.getD []).foldl stepEntry acc.buckets }
  else { acc with failed_attacks := acc.failed_attacks + 1 }

/-- Lines 88-93: replace each bucket's raw rate list by its mean,
median and length. -/
def finishBuckets (bs : List (String × List ℚ)) : List (String × StrategyPerf) :=
  bs.map (fun p => (p.1, ⟨pymean p.2, pymedian p.2, p.2.length⟩))

/-- `AttackEvaluator.evaluate` (lines 39-96). An empty result list takes
the early `return {}` at line 43, embedded as `none`: the empty dict
holds none of the metric keys. Otherwise the loop runs and, when the
collected `success_rates` list is non-empty, the summary statistics and
per-strategy aggregates are computed (lines 83-93); when it is empty no
bucket can exist either (buckets are only filled in the success branch),
so the dict of raw buckets left behind by the code is the empty mapping,
embedded as `[]`. -/
def evaluate (results : List ERec) : Option Metrics :=
  if results.isEmpty then none
  else
    let acc := results.foldl stepRecord initAcc
    some
      { total_attacks := results.length
        successful_attacks := acc.successful_attacks
        failed_attacks := acc.failed_attacks
        success_rates := acc.success_rates
        average_success_rate :=
          if acc.success_rates.isEmpty then 0 else pymean acc.success_rates
        median_success_rate :=
          if acc.success_rates.isEmpty then 0 else pymedian acc.success_rates
        max_success_rate := acc.max_success_rate
        min_success_rate := acc.min_success_rate
        strategy_performance :=
          if acc.success_rates.isEmpty then [] else finishBuckets acc.buckets
        tool_specific_performance := [] }

/-! ## `AttackEvaluator.load_results` / `save_report`
(evaluator.py lines 24-37 and 129-139) -/

/-- A parsed JSON document handed to `load_results`: either a JSON array
of outcome records, or any non-array value viewed through the record
keys `evaluate` reads. -/
inductive ResultDoc where
  | list (rs : List ERec)
  | single (r : ERec)
deriving DecidableEq, Repr

/-- Lines 29-32: a JSON array becomes the result list as-is; any other
value is wrapped into a one-element list. -/
def docToResults : ResultDoc → List ERec
  | .list rs => rs
  | .single r => [r]

/-- `load_results` as a transition on the evaluator's `results` state:
when opening or parsing the source fails, the exception is caught, the
previous results are left untouched and `False` is returned (lines
35-37); otherwise the normalized document replaces them and `True` is
returned. -/
def load_results (prev : List ERec) (src : Except String ResultDoc) :
    List ERec × Bool :=
  match src with
  | .error _ => (prev, false)
  | .ok doc => (docToResults doc, true)

/-- The document written by `save_report` (lines 131-134): a JSON object
with exactly the keys `metrics` and `detailed_results`. The stored
metrics value is the evaluator's `self.metrics`, which is the empty dict
(`none`) until a non-empty evaluation has run. -/
structure Report where
  metrics : Option Metrics
  detailed_results : List ERec
deriving DecidableEq, Repr

/-- `AttackEvaluator.save_report`. -/
def save_report (m : Option Metrics) (rs : List ERec) : Report := ⟨m, rs⟩

/-- The saved report object as seen through the keys `evaluate` reads:
its only keys are `metrics` and `detailed_results`, so `success`,
`overall_success_rate` and `results` are all absent. -/
def reportAsRecord (_ : Report) : ERec := ⟨none, none, none⟩

/-- Reading a saved report back with `load_results`: `json.load` yields
a JSON object (not an array), so the document is a `single` record. -/
def reportDoc (rep : Report) : ResultDoc := .single (reportAsRecord rep)

/-! ## Process invocations (libpass_attack.py, automated_attack.py) -/

/-- The observable outcome of `subprocess.run` under a timeout:
completion with an exit code and captured streams, expiry of the
timeout, or any other exception while starting/running. -/
inductive ExecResult where
  | completed (exitCode : ℤ) (stdout stderr : String)
  | timedOut
  | failed (msg : String)
deriving DecidableEq, Repr

/-- One child-process invocation as issued by the frameworks: the
argument list, the fact that `cwd` is the project base directory, and
the wall-clock timeout in seconds passed to `subprocess.run`. -/
structure ProcCall where
  args : List String
  cwdBaseDir : Bool
  timeoutSeconds : ℕ
deriving DecidableEq, Repr

/-! ### Basic framework (libpass_attack.py) -/

/-- `LibPassAttackFramework.java_main_class` (line 38). -/
def libpass_java_main_class : String := "com.libpass.attack.LibPassAttackMain"

/-- `LibPassAttackFramework._build_java_command` (lines 214-250): prefer
the versioned jar, then the all-in-one jar, else the compiled-class
directory plus the wildcard dependency path; the request fields follow
the entry point positionally. -/
def libpass_build_java_command (baseDir apkPath androidJar outputDir : String)
    (jar1Exists jar2Exists : Bool) : List String :=
  if jar1Exists then
    ["java", "-cp", baseDir ++ "/build/libs/libpass-attack-1.0.0.jar",
     libpass_java_main_class, apkPath, androidJar, outputDir]
  else if jar2Exists then
    ["java", "-cp", baseDir ++ "/build/libs/libpass-attack-all.jar",
     libpass_java_main_class, apkPath, androidJar, outputDir]
  else
    ["java", "-cp",
     baseDir ++ "/build/classes/java/main:" ++ baseDir ++ "/libs/*",
     libpass_java_main_class, apkPath, androidJar, outputDir]

/-- The `subprocess.run` call of `attack_single_apk` (lines 159-165):
`cwd=self.base_dir`, `timeout=600` (ten minutes). -/
def libpass_single_call (baseDir apkPath androidJar outputDir : String)
    (jar1Exists jar2Exists : Bool) : ProcCall :=
  ⟨libpass_build_java_command baseDir apkPath androidJar outputDir jar1Exists jar2Exists,
   true, 600⟩

/-- `LibPassAttackFramework._calculate_success_rate` (lines 258-264):
mean of the entries' `successRate` values, 0.0 for an empty list. -/
def libpass_calculate_success_rate (results : List SEntry) : ℚ :=
  if results.isEmpty then 0
  else (results.map (fun r => r.successRate.getD 0)).sum / results.length

/-- The outcome dict built by `LibPassAttackFramework.attack_single_apk`
(lines 157-212). -/
structure AttackOutcome where
  success : Bool
  apk_path : String
  output_dir : Option String
  results : Option (List SEntry)
  overall_success_rate : Option ℚ
  error : Option String
  stdout : Option String
  stderr : Option String
deriving DecidableEq, Repr

/-- Outcome classification of `attack_single_apk` (lines 157-212), as a
function of the process result and of the optional content of
`output_dir/attack_results.json` (`none` when the file is absent, in
which case line 176 substitutes the empty list). -/
def libpass_attack_single_outcome (apkPath outputDir : String)
    (exec : ExecResult) (resultFile : Option (List SEntry)) : AttackOutcome :=
  match exec with
  | .completed code out err =>
      if code = 0 then
        let attackResults := resultFile.getD []
        { success := true, apk_path := apkPath, output_dir := some outputDir,
          results := some attackResults,
          overall_success_rate := some (libpass_calculate_success_rate attackResults),
          error := none, stdout := some out, stderr := some err }
      else
        { success := false, apk_path := apkPath, output_dir := none,
          results := none, overall_success_rate := none,
          error := some err, stdout := some out, stderr := none }
  | .timedOut =>
      { success := false, apk_path := apkPath, output_dir := none,
        results := none, overall_success_rate := none,
        error := some "执行超时", stdout := none, stderr := none }
  | .failed msg =>
      { success := false, apk_path := apkPath, output_dir := none,
        results := none, overall_success_rate := none,
        error := some msg, stdout := none, stderr := none }

/-- The summary dict of `_output_batch_summary` (lines 311-330). -/
structure BatchSummary where
  total_apks : ℕ
  successful_attacks : ℕ
  failed_attacks : ℕ
  average_success_rate : ℚ
  detailed_results : List AttackOutcome
deriving DecidableEq, Repr

/-- `LibPassAttackFramework._output_batch_summary` (lines 311-330):
count the truthy-`success` outcomes, collect their
`overall_success_rate` values (default 0.0), and average them — 0.0
when no outcome succeeded. -/
def output_batch_summary (results : List AttackOutcome) : BatchSummary :=
  let total := results.length
  let successCount := results.countP (fun r => r.success)
  let successRates :=
    (results.filter (fun r => r.success)).map (fun r => r.overall_success_rate.getD 0)
  { total_apks := total
    successful_attacks := successCount
    failed_attacks := total - successCount
    average_success_rate :=
      if successRates.isEmpty then 0 else successRates.sum / successRates.length
    detailed_results := results }

/-- `Path.stem`: the file name without its final suffix. -/
def pathStem (s : String) : String :=
  let parts := s.splitOn "."
  if parts.length ≤ 1 then s
  else String.intercalate "." parts.dropLast

/-- `LibPassAttackFramework.attack_batch` (lines 266-309), with the file
system and the engine abstracted: `dirExists` is the `apk_path.exists()`
test, `apkFiles` the enumerated `*.apk` files, `exec` the process
behavior per package and `readResult` the per-package optional content
of `attack_results.json`. Returns the outcome list, the list of child
invocations issued, and the summary written (none when the directory is
missing: the function returns `[]` at line 288 before any other work). -/
def libpass_attack_batch (baseDir outputBaseDir androidJar : String)
    (jar1Exists jar2Exists : Bool) (dirExists : Bool) (apkFiles : List String)
    (exec : String → ExecResult) (readResult : String → Option (List SEntry)) :
    List AttackOutcome × List ProcCall × Option BatchSummary :=
  if dirExists then
    let calls := apkFiles.map (fun apk =>
      libpass_single_call baseDir apk androidJar
        (outputBaseDir ++ "/" ++ pathStem apk) jar1Exists jar2Exists)
    let outs := apkFiles.map (fun apk =>
      libpass_attack_single_outcome apk (outputBaseDir ++ "/" ++ pathStem apk)
        (exec apk) (readResult apk))
    (outs, calls, some (output_batch_summary outs))
  else ([], [], none)

/-- The batch branch of libpass_attack.py's `main` (lines 390-403):
exit 1 when the directory does not exist; otherwise run `attack_batch`
and exit 0 exactly when the count of truthy-`success` outcomes is
positive, else 1. -/
def libpass_main_batch_exit (baseDir outputBaseDir androidJar : String)
    (jar1Exists jar2Exists : Bool) (dirExists : Bool) (apkFiles : List String)
    (exec : String → ExecResult) (readResult : String → Option (List SEntry)) : ℕ :=
  if dirExists then
    let results := (libpass_attack_batch baseDir outputBaseDir androidJar
      jar1Exists jar2Exists dirExists apkFiles exec readResult).1
    if 0 < results.countP (fun r => r.success) then 0 else 1
  else 1

/-! ### Automated framework (automated_attack.py) -/

/-- `AutomatedAttackFramework.java_main_class` (line 33). -/
def automated_java_main_class : String := "com.libpass.attack.AutomatedAttackMain"

/-- `AutomatedAttackFramework._build_java_command` (lines 277-324):
versioned jar, then all-in-one jar, else classes plus wildcard
dependency path; seven positional request fields follow the entry
point. -/
def automated_build_java_command
    (baseDir apkPath tplPath tplName androidJar outputDir detectorType : String)
    (maxIterations : ℕ) (jar1Exists jar2Exists : Bool) : List String :=
  if jar1Exists then
    ["java", "-cp", baseDir ++ "/build/libs/src-1.0.0.jar",
     automated_java_main_class, apkPath, tplPath, tplName, androidJar,
     outputDir, detectorType, toString maxIterations]
  else if jar2Exists then
    ["java", "-cp", baseDir ++ "/build/libs/src-all.jar",
     automated_java_main_class, apkPath, tplPath, tplName, androidJar,
     outputDir, detectorType, toString maxIterations]
  else
    ["java", "-cp",
     baseDir ++ "/build/classes/java/main:" ++ baseDir ++ "/libs/*",
     automated_java_main_class, apkPath, tplPath, tplName, androidJar,
     outputDir, detectorType, toString maxIterations]

/-- The `subprocess.run` call of the automated `attack_single_apk`
(lines 111-117): `cwd=self.base_dir`, `timeout=3600` (one hour). -/
def automated_single_call
    (baseDir apkPath tplPath tplName androidJar outputDir detectorType : String)
    (maxIterations : ℕ) (jar1Exists jar2Exists : Bool) : ProcCall :=
  ⟨automated_build_java_command baseDir apkPath tplPath tplName androidJar
     outputDir detectorType maxIterations jar1Exists jar2Exists, true, 3600⟩

/-- The `subprocess.run` call of the automated `attack_batch` (lines
218-224): the directory is passed as the package path,
`cwd=self.base_dir`, `timeout=7200` (two hours). -/
def automated_batch_call
    (baseDir apkDir tplPath tplName androidJar outputBaseDir detectorType : String)
    (maxIterations : ℕ) (jar1Exists jar2Exists : Bool) : ProcCall :=
  ⟨automated_build_java_command baseDir apkDir tplPath tplName androidJar
     outputBaseDir detectorType maxIterations jar1Exists jar2Exists, true, 7200⟩

/-- The parsed content of `automated_attack_result.json`: a JSON object
optionally carrying `attackSuccess`. The empty object (a missing file's
substitute at line 128) has every key absent. -/
structure AutoResult where
  attackSuccess : Option Bool
deriving DecidableEq, Repr

/-- The outcome dict built by the automated `attack_single_apk`
(lines 110-160). -/
structure AutoOutcome where
  success : Bool
  apk_path : String
  tpl_name : Option String
  result : Option AutoResult
  error : Option String
  stdout : Option String
  stderr : Option String
deriving DecidableEq, Repr

/-- Outcome classification of the automated `attack_single_apk` (lines
110-160), as a function of the process result and of the optional
content of `output_dir/automated_attack_result.json` (`none` when the
file is absent, in which case line 128 substitutes the empty object). -/
def automated_attack_single_outcome (apkPath tplName : String)
    (exec : ExecResult) (resultFile : Option AutoResult) : AutoOutcome :=
  match exec with
  | .completed code out err =>
      if code = 0 then
        { success := true, apk_path := apkPath, tpl_name := some tplName,
          result := some (resultFile.getD ⟨none⟩),
          error := none, stdout := some out, stderr := some err }
      else
        { success := false, apk_path := apkPath, tpl_name := none,
          result := none, error := some err, stdout := some out, stderr := none }
  | .timedOut =>
      { success := false, apk_path := apkPath, tpl_name := none,
        result := none, error := some "执行超时", stdout := none, stderr := none }
  | .failed msg =>
      { success := false, apk_path := apkPath, tpl_name := none,
        result := none, error := some msg, stdout := none, stderr := none }

/-- The parsed content of `batch_attack_result.json` (lines 230-240). -/
structure AutoBatchResult where
  successRate : Option ℚ
  successCount : Option ℕ
  totalApks : Option ℕ
deriving DecidableEq, Repr

/-- The dict returned by the automated `attack_batch` on the non-error
path (lines 217-275). -/
structure AutoBatchOutcome where
  success : Bool
  batch_result : Option AutoBatchResult
  success_rate : Option ℚ
  success_count : Option ℕ
  total_apks : Option ℕ
  error : Option String
  stdout : Option String
deriving DecidableEq, Repr

/-- `AutomatedAttackFramework.attack_batch` (lines 162-275), engine and
file system abstracted. A missing directory returns the empty dict
(`none`) at line 192 before any invocation; otherwise one native batch
invocation is issued and classified, with `totalApks` defaulting to the
number of enumerated files. Returns the outcome and the list of child
invocations issued. -/
def automated_attack_batch
    (baseDir apkDir tplPath tplName androidJar outputBaseDir detectorType : String)
    (maxIterations : ℕ) (jar1Exists jar2Exists : Bool)
    (dirExists : Bool) (apkFiles : List String)
    (exec : ExecResult) (batchResultFile : Option AutoBatchResult) :
    Option AutoBatchOutcome × List ProcCall :=
  if dirExists then
    let call := automated_batch_call baseDir apkDir tplPath tplName androidJar
      outputBaseDir detectorType maxIterations jar1Exists jar2Exists
    let out : AutoBatchOutcome :=
      match exec with
      | .completed code out err =>
          if code = 0 then
            let br := batchResultFile.getD ⟨none, none, none⟩
            { success := true, batch_result := some br,
              success_rate := some (br.successRate.getD 0),
              success_count := some (br.successCount.getD 0),
              total_apks := some (br.totalApks.getD apkFiles.length),
              error := none, stdout := some out }
          else
            { success := false, batch_result := none, success_rate := none,
              success_count := none, total_apks := none,
              error := some err, stdout := some out }
      | .timedOut =>
          { success := false, batch_result := none, success_rate := none,
            success_count := none, total_apks := none,
            error := some "执行超时", stdout := none }
      | .failed msg =>
          { success := false, batch_result := none, success_rate := none,
            success_count := none, total_apks := none,
            error := some msg, stdout := none }
    (some out, [call])
  else (none, [])

/-! ## Spec-side definitions

These follow the spec's words, for comparison with the embedded code. -/

/-- The arithmetic mean of a list of rationals, as the spec words it. -/
def arithMean (l : List ℚ) : ℚ := l.sum / l.length

/-- Spec-side count for C3, as the claim words it: the number of loaded
records in which the named strategy appears (successful and
unsuccessful alike). -/
def specRecordsWithStrategy (rs : List ERec) (name : String) : ℕ :=
  (rs.filter (fun r =>
    (r.results.getD []).any (fun e => e.strategyName.getD "unknown" = name))).length

/-- The per-strategy rates the code actually buckets: for each record
whose `success` is truthy, in order, the `successRate` values of its
entries bearing the given strategy name. Its length is the number of
such entries across the successful records. -/
def successfulStrategyRates : List ERec → String → List ℚ
  | [], _ => []
  | r :: rs, name =>
      (if r.success.getD false then
        ((r.results.getD []).filter
          (fun e => e.strategyName.getD "unknown" = name)).map
          (fun e => e.successRate.getD 0)
       else []) ++ successfulStrategyRates rs name

/-- First-match lookup in a rate-bucket association list. -/
def lookupBucket : List (String × List ℚ) → String → Option (List ℚ)
  | [], _ => none
  | (n, rs) :: rest, name => if n = name then some rs else lookupBucket rest name

/-- First-match lookup in the aggregated `strategy_performance` list. -/
def lookupPerf : List (String × StrategyPerf) → String → Option StrategyPerf
  | [], _ => none
  | (n, p) :: rest, name => if n = name then some p else lookupPerf rest name

/-! ## Helper lemmas -/

theorem foldl_stepRecord_counts (rs : List ERec) (acc : EvalAcc) :
    (rs.foldl stepRecord acc).successful_attacks
      + (rs.foldl stepRecord acc).failed_attacks
      = acc.successful_attacks + acc.failed_attacks + rs.length := by
  induction rs generalizing acc with
  | nil => simp
  | cons r rs ih =>
      simp only [List.foldl_cons, List.length_cons, ih]
      unfold stepRecord
      by_cases h : r.success.getD false <;> simp [h] <;> ring

theorem lookupBucket_bucketAdd (bs : List (String × List ℚ)) (n name : String) (r : ℚ) :
    lookupBucket (bucketAdd bs n r) name
      = if n = name then some ((lookupBucket bs name).getD [] ++ [r])
        else lookupBucket bs name := by
  induction bs with
  | nil =>
      by_cases h : n = name <;> simp [bucketAdd, lookupBucket, h]
  | cons p rest ih =>
      obtain ⟨m, l⟩ := p
      by_cases hmn : m = n
      · subst hmn
        by_cases hn : m = name <;> simp [bucketAdd, lookupBucket, hn]
      · by_cases hm : m = name
        · subst hm
          have hnm : ¬ n = m := fun h => hmn h.symm
          simp [bucketAdd, lookupBucket, hmn, hnm]
        · simp [bucketAdd, lookupBucket, hmn, hm, ih]

/-- Append new rates to an optional bucket content: absent stays absent
when nothing is added, and is created otherwise. -/
def optAppend (o : Option (List ℚ)) (new : List ℚ) : Option (List ℚ) :=
  if new.isEmpty then o else some (o.getD [] ++ new)

theorem optAppend_optAppend (o : Option (List ℚ)) (a b : List ℚ) :
    optAppend (optAppend o a) b = optAppend o (a ++ b) := by
  rcases a with _ | ⟨x, a⟩
  · simp [optAppend]
  · rcases b with _ | ⟨y, b⟩ <;> simp [optAppend]

theorem optAppend_snoc_cons (o : Option (List ℚ)) (r : ℚ) (rest : List ℚ) :
    optAppend (some (o.getD [] ++ [r])) rest = optAppend o (r :: rest) := by
  cases rest <;> simp [optAppend, List.append_assoc]

theorem lookupBucket_foldl_stepEntry (es : List SEntry) (bs : List (String × List ℚ))
    (name : String) :
    lookupBucket (es.foldl stepEntry bs) name
      = optAppend (lookupBucket bs name)
          ((es.filter (fun e => e.strategyName.getD "unknown" = name)).map
            (fun e => e.successRate.getD 0)) := by
  induction es generalizing bs with
  | nil => simp [optAppend]
  | cons e es ih =>
      simp only [List.foldl_cons, List.filter_cons]
      by_cases h : e.strategyName.getD "unknown" = name
      · have hstep : stepEntry bs e = bucketAdd bs name (e.successRate.getD 0) := by
          simp [stepEntry, h]
        rw [hstep, ih, lookupBucket_bucketAdd, if_pos rfl, optAppend_snoc_cons]
        simp [h]
      · have hstep : lookupBucket (stepEntry bs e) name = lookupBucket bs name := by
          rw [stepEntry, lookupBucket_bucketAdd, if_neg h]
        rw [ih, hstep]
        simp [h]

theorem lookupBucket_foldl_stepRecord (rs : List ERec) (acc : EvalAcc) (name : String) :
    lookupBucket (rs.foldl stepRecord acc).buckets name
      = optAppend (lookupBucket acc.buckets name) (successfulStrategyRates rs name) := by
  induction rs generalizing acc with
  | nil => simp [successfulStrategyRates, optAppend]
  | cons r rs ih =>
      simp only [List.foldl_cons]
      rw [ih, successfulStrategyRates]
      by_cases h : r.success.getD false
      · rw [show (stepRecord acc r).buckets = (r.results.getD []).foldl stepEntry acc.buckets by
          simp [stepRecord, h]]
        rw [lookupBucket_foldl_stepEntry, optAppend_optAppend]
        simp [h]
      · rw [show (stepRecord acc r).buckets = acc.buckets by simp [stepRecord, h]]
        simp [h]

theorem lookupPerf_finishBuckets (bs : List (String × List ℚ)) (name : String) :
    lookupPerf (finishBuckets bs) name
      = (lookupBucket bs name).map (fun l => ⟨pymean l, pymedian l, l.length⟩) := by
  induction bs with
  | nil => simp [finishBuckets, lookupPerf, lookupBucket]
  | cons p rest ih =>
      obtain ⟨n, l⟩ := p
      by_cases h : n = name
      · simp [finishBuckets, lookupPerf, lookupBucket, h]
      · simpa [finishBuckets, lookupPerf, lookupBucket, h] using ih

/-! ## Claim C1 -/

/-- C1: for every loaded result list on which `evaluate` returns a
metrics dictionary, the dictionary satisfies `total_attacks =
successful_attacks + failed_attacks`, and that total equals the number
of loaded records — every record is counted in exactly one of the two
counters. -/
theorem evaluate_total_split (rs : List ERec) (m : Metrics)
    (h : evaluate rs = some m) :
    m.total_attacks = m.successful_attacks + m.failed_attacks
      ∧ m.total_attacks = rs.length := by
  unfold evaluate at h
  by_cases he : rs.isEmpty
  · simp [he] at h
  · rw [if_neg he, Option.some.injEq] at h
    subst h
    have hc := foldl_stepRecord_counts rs initAcc
    simp only [initAcc, Nat.zero_add] at hc
    exact ⟨hc.symm, rfl⟩

/-- Witness for C1 at a two-record list with one success and one
failure. -/
theorem evaluate_total_split_witness :
    (⟨2, 1, 1, [1], 1, 1, 1, 1, [], []⟩ : Metrics).total_attacks
        = (⟨2, 1, 1, [1], 1, 1, 1, 1, [], []⟩ : Metrics).successful_attacks
          + (⟨2, 1, 1, [1], 1, 1, 1, 1, [], []⟩ : Metrics).failed_attacks
      ∧ (⟨2, 1, 1, [1], 1, 1, 1, 1, [], []⟩ : Metrics).total_attacks
        = ([⟨some true, some 1, some []⟩, ⟨some false, none, none⟩] : List ERec).length :=
  evaluate_total_split
    [⟨some true, some 1, some []⟩, ⟨some false, none, none⟩]
    ⟨2, 1, 1, [1], 1, 1, 1, 1, [], []⟩
    (by norm_num [evaluate, stepRecord, initAcc, stepEntry, bucketAdd,
      finishBuckets, pymean, pymedian, pysorted, insertSorted])

/-! ## Claim C2 -/

/-- C2 fails as stated: on an empty loaded result set, `evaluate` does
not return a metrics dictionary with zeroed counts and initialized
summary statistics — the early return at line 43 yields the empty
dictionary instead. -/
theorem evaluate_empty_counterexample :
    evaluate [] ≠ some ⟨0, 0, 0, [], 0, 0, 0, 1, [], []⟩ := by
  simp [evaluate]

/-- C2 amended: on an empty loaded result set, `evaluate` returns the
empty dictionary — a value holding none of the metric keys, not the
initialized metrics with zeroed counts — and, being a total function of
the loaded list, it raises nothing and performs no division. -/
theorem evaluate_empty_eq_none : evaluate [] = none := rfl

/-! ## Claim C3 -/

/-- C3 fails as stated: with a successful and an unsuccessful record
both carrying strategy `s`, the strategy appears in two loaded records
but its aggregated `count` is 1 — entries in unsuccessful records are
never bucketed. -/
theorem strategy_count_counterexample :
    (evaluate [⟨some true, some 1, some [⟨some "s", some 1⟩]⟩,
               ⟨some false, none, some [⟨some "s", some 1⟩]⟩]).map
        (fun m => lookupPerf m.strategy_performance "s")
      = some (some ⟨1, 1, 1⟩)
    ∧ specRecordsWithStrategy
        [⟨some true, some 1, some [⟨some "s", some 1⟩]⟩,
         ⟨some false, none, some [⟨some "s", some 1⟩]⟩] "s" = 2
    ∧ (1 : ℕ) ≠ 2 := by
  refine ⟨?_, by norm_num [specRecordsWithStrategy], by norm_num⟩
  norm_num [evaluate, stepRecord, initAcc, stepEntry, bucketAdd, finishBuckets,
    pymean, pymedian, pysorted, insertSorted, lookupPerf]

/-- C3 amended: the `count` field of a strategy's aggregated result
equals the number of per-strategy entries bearing that name across the
records whose `success` value is truthy only; entries of unsuccessful
records are not counted. -/
theorem strategy_count_successful_entries (rs : List ERec) (name : String)
    (m : Metrics) (p : StrategyPerf)
    (h : evaluate rs = some m)
    (hp : lookupPerf m.strategy_performance name = some p) :
    p.count = (successfulStrategyRates rs name).length := by
  unfold evaluate at h
  by_cases he : rs.isEmpty
  · simp [he] at h
  · rw [if_neg he, Option.some.injEq] at h
    subst h
    dsimp only at hp
    by_cases hrate : (List.foldl stepRecord initAcc rs).success_rates.isEmpty
    · simp [hrate, lookupPerf] at hp
    · rw [if_neg hrate] at hp
      rw [lookupPerf_finishBuckets, Option.map_eq_some'] at hp
      obtain ⟨l, hl, hfl⟩ := hp
      rw [lookupBucket_foldl_stepRecord] at hl
      simp only [initAcc, lookupBucket, optAppend] at hl
      by_cases hne : (successfulStrategyRates rs name).isEmpty
      · simp [hne] at hl
      · rw [if_neg hne, Option.some.injEq] at hl
        subst hl
        rw [← hfl]
        simp

/-- Witness for the amended C3 at a one-record list whose single
successful record carries one entry for strategy `s`. -/
theorem strategy_count_successful_entries_witness :
    (⟨1, 1, 1⟩ : StrategyPerf).count
      = (successfulStrategyRates
          [⟨some true, some 1, some [⟨some "s", some 1⟩]⟩] "s").length :=
  strategy_count_successful_entries
    [⟨some true, some 1, some [⟨some "s", some 1⟩]⟩] "s"
    ⟨1, 1, 0, [1], 1, 1, 1, 1, [("s", ⟨1, 1, 1⟩)], []⟩ ⟨1, 1, 1⟩
    (by norm_num [evaluate, stepRecord, initAcc, stepEntry, bucketAdd,
      finishBuckets, pymean, pymedian, pysorted, insertSorted])
    (by norm_num [lookupPerf])

/-! ## Claim C4 -/

/-- C4: the batch summary reports the number of outcomes as
`total_apks`, the truthy-`success` outcomes as `successful_attacks`,
the rest as `failed_attacks`, and `average_success_rate` is the
arithmetic mean of `overall_success_rate` over the successful outcomes
only — and zero when no outcome is successful. -/
theorem batch_summary_stats (results : List AttackOutcome) :
    (output_batch_summary results).total_apks = results.length
    ∧ (output_batch_summary results).successful_attacks
        = (results.filter (fun r => r.success)).length
    ∧ (output_batch_summary results).failed_attacks
        = results.length - (results.filter (fun r => r.success)).length
    ∧ (results.filter (fun r => r.success) ≠ [] →
        (output_batch_summary results).average_success_rate
          = arithMean ((results.filter (fun r => r.success)).map
              (fun r => r.overall_success_rate.getD 0)))
    ∧ (results.filter (fun r => r.success) = [] →
        (output_batch_summary results).average_success_rate = 0) := by
  refine ⟨rfl, ?_, ?_, ?_, ?_⟩
  · simp [output_batch_summary, List.countP_eq_length_filter]
  · simp [output_batch_summary, List.countP_eq_length_filter]
  · intro h
    have hne : ¬((results.filter (fun r => r.success)).map
        (fun r => r.overall_success_rate.getD 0)).isEmpty := by
      simp [List.isEmpty_iff, h]
    simp [output_batch_summary, hne, arithMean]
  · intro h
    simp [output_batch_summary, h]

/-- Scenario B of the spec, produced through the outcome classifier:
five packages, two timed out, three completed with exit code zero. -/
def scenarioB : List AttackOutcome :=
  [libpass_attack_single_outcome "a.apk" "out/a" .timedOut none,
   libpass_attack_single_outcome "b.apk" "out/b" .timedOut none,
   libpass_attack_single_outcome "c.apk" "out/c" (.completed 0 "" "") none,
   libpass_attack_single_outcome "d.apk" "out/d" (.completed 0 "" "")
     (some [⟨some "rename_packages", some 1⟩]),
   libpass_attack_single_outcome "e.apk" "out/e" (.completed 0 "" "")
     (some [⟨some "rename_classes", some (1/2)⟩])]

/-- Witness for C4 at scenario B: `total_apks = 5`,
`successful_attacks = 3`, `failed_attacks = 2`, and the average is the
mean over the three successes. -/
theorem batch_summary_stats_witness :
    scenarioB.filter (fun r => r.success) ≠ []
    ∧ (output_batch_summary scenarioB).total_apks = 5
    ∧ (output_batch_summary scenarioB).successful_attacks = 3
    ∧ (output_batch_summary scenarioB).failed_attacks = 2
    ∧ (output_batch_summary scenarioB).average_success_rate
        = arithMean ((scenarioB.filter (fun r => r.success)).map
            (fun r => r.overall_success_rate.getD 0)) :=
  ⟨by simp [scenarioB, libpass_attack_single_outcome],
   ((batch_summary_stats scenarioB).1).trans (by norm_num [scenarioB]),
   ((batch_summary_stats scenarioB).2.1).trans
     (by norm_num [scenarioB, libpass_attack_single_outcome]),
   ((batch_summary_stats scenarioB).2.2.1).trans
     (by norm_num [scenarioB, libpass_attack_single_outcome]),
   (batch_summary_stats scenarioB).2.2.2.1
     (by simp [scenarioB, libpass_attack_single_outcome])⟩

/-! ## Claim C5 -/

/-- C5: a zero-exit invocation whose declared result artifact is absent
yields a successful outcome with an empty payload in both frameworks:
the basic framework substitutes the empty list (overall rate 0.0), the
automated framework the empty object; neither reports an error. -/
theorem zero_exit_missing_artifact (apkPath outputDir tplName out err : String) :
    (libpass_attack_single_outcome apkPath outputDir
        (.completed 0 out err) none).success = true
    ∧ (libpass_attack_single_outcome apkPath outputDir
        (.completed 0 out err) none).results = some []
    ∧ (libpass_attack_single_outcome apkPath outputDir
        (.completed 0 out err) none).overall_success_rate = some 0
    ∧ (libpass_attack_single_outcome apkPath outputDir
        (.completed 0 out err) none).error = none
    ∧ (automated_attack_single_outcome apkPath tplName
        (.completed 0 out err) none).success = true
    ∧ (automated_attack_single_outcome apkPath tplName
        (.completed 0 out err) none).result = some ⟨none⟩
    ∧ (automated_attack_single_outcome apkPath tplName
        (.completed 0 out err) none).error = none := by
  norm_num [libpass_attack_single_outcome, automated_attack_single_outcome,
    libpass_calculate_success_rate]

/-! ## Claim C6 -/

/-- C6: when the package directory does not exist, both batch
orchestrators return immediately with an empty result — no outcome, no
engine invocation issued, and (for the basic framework) no summary
written. -/
theorem batch_missing_dir
    (baseDir outputBaseDir androidJar apkDir tplPath tplName detectorType : String)
    (maxIterations : ℕ) (jar1 jar2 : Bool) (apkFiles : List String)
    (exec : String → ExecResult) (readResult : String → Option (List SEntry))
    (execB : ExecResult) (batchFile : Option AutoBatchResult) :
    libpass_attack_batch baseDir outputBaseDir androidJar jar1 jar2 false
        apkFiles exec readResult = ([], [], none)
    ∧ automated_attack_batch baseDir apkDir tplPath tplName androidJar
        outputBaseDir detectorType maxIterations jar1 jar2 false apkFiles
        execB batchFile = (none, []) :=
  ⟨rfl, rfl⟩

/-! ## Claim C7 -/

/-- C7 fails as stated: the basic framework's single-package invocation
runs under a 600-second (ten-minute) timeout, not the claimed one-hour
default. -/
theorem single_timeout_counterexample :
    (libpass_single_call "base" "a.apk" "android.jar" "out" true true).timeoutSeconds = 600
    ∧ (600 : ℕ) ≠ 3600 := by
  exact ⟨rfl, by norm_num⟩

/-- C7 amended: every external-engine invocation runs as a child
process in the project base directory under a hard wall-clock timeout;
the automated framework uses 3600 s (one hour) for a single package and
7200 s (two hours) for a directory batch, while the basic framework's
single-package invocation uses 600 s (ten minutes). -/
theorem invocation_timeouts
    (baseDir apkPath tplPath tplName androidJar outputDir detectorType apkDir : String)
    (maxIterations : ℕ) (jar1 jar2 : Bool) :
    (libpass_single_call baseDir apkPath androidJar outputDir jar1 jar2).timeoutSeconds = 600
    ∧ (libpass_single_call baseDir apkPath androidJar outputDir jar1 jar2).cwdBaseDir = true
    ∧ (automated_single_call baseDir apkPath tplPath tplName androidJar outputDir
        detectorType maxIterations jar1 jar2).timeoutSeconds = 3600
    ∧ (automated_single_call baseDir apkPath tplPath tplName androidJar outputDir
        detectorType maxIterations jar1 jar2).cwdBaseDir = true
    ∧ (automated_batch_call baseDir apkDir tplPath tplName androidJar outputDir
        detectorType maxIterations jar1 jar2).timeoutSeconds = 7200
    ∧ (automated_batch_call baseDir apkDir tplPath tplName androidJar outputDir
        detectorType maxIterations jar1 jar2).cwdBaseDir = true :=
  ⟨rfl, rfl, rfl, rfl, rfl, rfl⟩

/-! ## Claim C8 -/

/-- C8 fails as stated: a batch whose invocation mechanism works — the
directory exists and the engine runs on the single package — but whose
one package fails (non-zero exit) makes the CLI exit with code 1,
not 0. -/
theorem batch_exit_counterexample :
    libpass_main_batch_exit "base" "out" "android.jar" true true true ["a.apk"]
        (fun _ => .completed 1 "" "engine error") (fun _ => none) = 1
    ∧ (1 : ℕ) ≠ 0 :=
  ⟨rfl, by norm_num⟩

/-- C8 amended: when the package directory exists, the basic
framework's batch CLI exits 0 exactly when at least one individual
package attack succeeded, and 1 otherwise — even when the invocation
mechanism itself worked; a missing directory also exits 1. -/
theorem batch_exit_iff_some_success (baseDir outputBaseDir androidJar : String)
    (jar1 jar2 : Bool) (apkFiles : List String)
    (exec : String → ExecResult) (readResult : String → Option (List SEntry)) :
    (libpass_main_batch_exit baseDir outputBaseDir androidJar jar1 jar2 true
        apkFiles exec readResult = 0
      ↔ 0 < ((libpass_attack_batch baseDir outputBaseDir androidJar jar1 jar2 true
          apkFiles exec readResult).1.countP (fun r => r.success)))
    ∧ libpass_main_batch_exit baseDir outputBaseDir androidJar jar1 jar2 false
        apkFiles exec readResult = 1 := by
  constructor
  · unfold libpass_main_batch_exit
    by_cases h : 0 < ((libpass_attack_batch baseDir outputBaseDir androidJar jar1 jar2
        true apkFiles exec readResult).1.countP (fun r => r.success)) <;>
      simp [h]
  · rfl

/-! ## Claim C9 -/

/-- C9 fails as stated: saving the report for a one-success result list
and reloading it does not reproduce the original statistics — the
reloaded document is the report object itself, wrapped as a single
record with no `success` key, so re-evaluation differs. -/
theorem roundtrip_counterexample :
    evaluate (docToResults (reportDoc (save_report
        (evaluate [⟨some true, some 1, some []⟩]) [⟨some true, some 1, some []⟩])))
      ≠ evaluate [⟨some true, some 1, some []⟩] := by
  norm_num [evaluate, stepRecord, initAcc, reportDoc, save_report, reportAsRecord,
    docToResults, stepEntry, bucketAdd, finishBuckets, pymean, pymedian,
    pysorted, insertSorted]

/-- C9 amended: writing the evaluation report and reloading it always
re-evaluates to the metrics of one unsuccessful record — one total
attack, zero successful, one failed, empty rate statistics — regardless
of the original results, because the saved document is a JSON object
(not an array) exposing neither `success` nor `overall_success_rate`
nor `results`. -/
theorem roundtrip_single_failure (m : Option Metrics) (rs : List ERec) :
    evaluate (docToResults (reportDoc (save_report m rs)))
      = some ⟨1, 0, 1, [], 0, 0, 0, 1, [], []⟩ := rfl

/-! ## Claim C10 -/

/-- C10: a failed load is atomic — for every source whose open or parse
raises, `load_results` catches the exception, returns `False`, and
leaves the previously loaded results exactly as they were. -/
theorem load_results_failure_atomic (prev : List ERec) (msg : String) :
    load_results prev (.error msg) = (prev, false) := rfl

end LibPass
